import Mathlib

/-!
Verification development for the getter-derive option compiler of the
`utils-lib` repository (`src/derive/src/getter/`).

The Rust source is shallowly embedded: `syn::Meta` argument trees become the
inductive `Meta`, each per-aspect option type (`Visibility`, `ConstTy`,
`GetterTy`, `SelfTy`, `FunctionName`) is translated together with its parse
functions, and the accumulator (`MutableGetterOption` /
`ImmutableGetterOption`), attribute resolver (`GetterOption::parse`),
validation and code emission are translated function by function.

Rust panics (`proc_macro2::Ident::new` on an invalid identifier string, and
the `expect("no field name")` calls in the emitters) are modelled by the
`MayPanic` wrapper. Token streams emitted by `quote!` are modelled
structurally (`AccessorDecl`, `Item`, `DeriveOutput`): the low-level
token-splicing layer is outside the modelled system, only the resolved
fragments it receives are represented.
-/

namespace UtilsLib

/-- Result of a Rust computation that can panic (such as
`proc_macro2::Ident::new` on an invalid identifier string). -/
inductive MayPanic (α : Type) where
  /-- the computation panicked -/
  | panicked : MayPanic α
  /-- the computation returned normally -/
  | ok (a : α) : MayPanic α
deriving DecidableEq, Repr

namespace MayPanic

/-- propagate a panic, otherwise continue -/
def bind {α β : Type} : MayPanic α → (α → MayPanic β) → MayPanic β
  | .panicked, _ => .panicked
  | .ok a, f => f a

/-- map over a non-panicking result -/
def map {α β : Type} (f : α → β) : MayPanic α → MayPanic β
  | .panicked => .panicked
  | .ok a => .ok (f a)

/-- true iff the computation did not panic -/
def isOk {α : Type} : MayPanic α → Bool
  | .panicked => false
  | .ok _ => true

end MayPanic

/-- equality of `Except` values is decidable when it is on both parts -/
instance {ε α : Type} [DecidableEq ε] [DecidableEq α] :
    DecidableEq (Except ε α) := fun a b =>
  match a, b with
  | .ok x, .ok y => decidable_of_iff (x = y) (by simp)
  | .ok _, .error _ => .isFalse (by simp)
  | .error _, .ok _ => .isFalse (by simp)
  | .error x, .error y => decidable_of_iff (x = y) (by simp)

/-- Rust identifiers (`proc_macro2::Ident`) are modelled by their string. -/
abbrev Ident := String

/-- first character of a Rust identifier: letter or underscore -/
def isIdentStart (c : Char) : Bool := c.isAlpha || c = '_'

/-- later character of a Rust identifier: letter, digit or underscore -/
def isIdentCont (c : Char) : Bool := c.isAlphanum || c = '_'

/-- whether a string is a valid (ASCII) Rust identifier; `proc_macro2::Ident::new`
panics on strings for which this is false -/
def isValidIdent (s : String) : Bool :=
  match s.toList with
  | [] => false
  | c :: cs => isIdentStart c && cs.all isIdentCont

/-- `proc_macro2::Ident::new`: constructs an identifier, panicking if the
string is not a valid identifier. -/
def Ident.new (s : String) : MayPanic Ident :=
  if isValidIdent s then .ok s else .panicked

/-- literals appearing in attribute arguments (`syn::Lit`), restricted to the
shapes the getter parser inspects -/
inductive Lit where
  /-- a string literal -/
  | str (s : String) : Lit
  /-- a boolean literal -/
  | boolLit (b : Bool) : Lit
  /-- any other literal kind -/
  | other : Lit
deriving DecidableEq, Repr

/-- expressions appearing on the right of `name = value` (`syn::Expr`),
restricted to the shapes the getter parser inspects -/
inductive Expr where
  /-- a literal expression -/
  | lit (l : Lit) : Expr
  /-- any other expression -/
  | other : Expr
deriving DecidableEq, Repr

/-- `get_string_literal` from `attribute_option.rs`: the string of a
`Lit::Str` expression, `None` otherwise. -/
def get_string_literal : Expr → Option String
  | .lit (.str s) => some s
  | _ => none

/-- a `syn::Path`, as its list of segment names -/
abbrev Path := List String

/-- `syn::Path::get_ident`: the single segment when the path has exactly one -/
def Path.get_ident : Path → Option String
  | [s] => some s
  | _ => none

/-- `syn::Path::is_ident`: the path is exactly the given single identifier -/
def Path.isIdent (p : Path) (s : String) : Bool :=
  match p with
  | [t] => t == s
  | _ => false

/-- one parsed attribute argument (`syn::Meta`): a bare path, a
`name = value` pair, or a `name(tokens)` list.  The tokens of a list are
modelled already parsed as a comma-separated list of `Meta` (the shape
`GetterOption::parse` requests from `syn`). -/
inductive Meta where
  /-- a bare path such as `pub` -/
  | path (p : Path) : Meta
  /-- an assignment such as `name = "a"` -/
  | nameValue (p : Path) (value : Expr) : Meta
  /-- a parenthesized form such as `getter_ty(Clone)` -/
  | list (p : Path) (args : List Meta) : Meta

/-- `MetaList::parse_args::<Ident>()`: the inner tokens parse as one single
identifier exactly when they are a single one-segment path. -/
def parseArgsIdent : List Meta → Option String
  | [Meta.path p] => Path.get_ident p
  | _ => none

/-- recoverable "not mine" parse failures (`error.rs`, `AcceptableParseError`) -/
inductive AcceptableParseError where
  /-- bare path not recognized by this option -/
  | pathNotRecognized : AcceptableParseError
  /-- left hand side of an assignment not recognized by this option -/
  | leftHandSideValueNotRecognized : AcceptableParseError
deriving DecidableEq, Repr

/-- unrecoverable parse failures (`error.rs`, `UnacceptableParseError`) -/
inductive UnacceptableParseError where
  /-- left hand side path of an assignment has several segments -/
  | leftHandSideValuePathIsNotIdent : UnacceptableParseError
  /-- right hand value is malformed or not an accepted spelling -/
  | rightHandValueInvalid : UnacceptableParseError
  /-- right hand value is not a string literal where one is expected -/
  | rightHandNameValueExprNotLitString : UnacceptableParseError
  /-- `syn` failed to parse the inner tokens of a list as an identifier -/
  | identParseError : UnacceptableParseError
deriving DecidableEq, Repr

/-- two-tier error of one aspect's `parse_option`
(`error.rs`, `ParseAttributeOptionError`) -/
inductive ParseAttributeOptionError where
  /-- recoverable: this argument belongs to another aspect -/
  | acceptable (e : AcceptableParseError) : ParseAttributeOptionError
  /-- unrecoverable: the argument targeted this aspect but is malformed -/
  | unacceptable (e : UnacceptableParseError) : ParseAttributeOptionError
deriving DecidableEq, Repr

/-- error of an accumulator's `add_config`, tagged with the aspect being
attempted (`error.rs`, `AddConfigError<T>`) -/
inductive AddConfigError (L : Type) where
  /-- recoverable: no aspect of this accumulator matched -/
  | acceptable (e : AcceptableParseError) : AddConfigError L
  /-- unrecoverable failure while attempting aspect `o` -/
  | unacceptable (e : UnacceptableParseError) (o : L) : AddConfigError L
deriving DecidableEq, Repr

/-- error of `ParseGetterOption::parse` (`error.rs`, `GetterParseError<T>`);
by construction it carries only unacceptable malformations and duplicates -/
inductive GetterParseError (L : Type) where
  /-- an unacceptable failure while attempting aspect `o` -/
  | addConfigError (e : UnacceptableParseError) (o : L) : GetterParseError L
  /-- aspect `o` was supplied more than once in one argument list -/
  | fieldAttributeOptionSetMultipleTimes (o : L) : GetterParseError L
deriving DecidableEq, Repr

/-- validation failures (`error.rs`, `OptionValidationError`) -/
inductive OptionValidationError where
  /-- no name override and the field has no identifier -/
  | functionNameMissing : OptionValidationError
  /-- receiver by value combined with return by reference -/
  | selfMoveOnReturnRef : OptionValidationError
deriving DecidableEq, Repr

/-- aspects of the mutable-getter accumulator
(`option_enum.rs`, `MutableOptionList`) -/
inductive MutableOptionList where
  /-- the visibility aspect -/
  | visibility : MutableOptionList
  /-- the name aspect -/
  | identOption : MutableOptionList
deriving DecidableEq, Repr

/-- aspects of the immutable-getter accumulator
(`option_enum.rs`, `ImmutableOptionList`) -/
inductive ImmutableOptionList where
  /-- an aspect shared with the mutable accumulator -/
  | mutableOption (o : MutableOptionList) : ImmutableOptionList
  /-- the constness aspect -/
  | constTy : ImmutableOptionList
  /-- the return-mode aspect -/
  | getterTy : ImmutableOptionList
  /-- the receiver-mode aspect -/
  | selfTy : ImmutableOptionList
deriving DecidableEq, Repr

/-- generic `ParseOptionUtils::parse_name_value` (`attribute_option.rs`):
check the left-hand trigger, require a string literal, then try the aspect's
assignment recognizer -/
def parseNameValueWith {α : Type} (fromStrAssign : String → Option α)
    (leftHand : String → Bool) (p : Path) (v : Expr) :
    Except ParseAttributeOptionError α :=
  match Path.get_ident p with
  | none => .error (.unacceptable .leftHandSideValuePathIsNotIdent)
  | some id =>
    if leftHand id then
      match get_string_literal v with
      | none => .error (.unacceptable .rightHandNameValueExprNotLitString)
      | some s =>
        match fromStrAssign s with
        | some a => .ok a
        | none => .error (.unacceptable .rightHandValueInvalid)
    else .error (.acceptable .leftHandSideValueNotRecognized)

/-- generic `ParseOptionUtils::parse_meta_list` (`attribute_option.rs`):
check the left-hand trigger, require the inner tokens to be one identifier,
then try the aspect's assignment recognizer -/
def parseMetaListWith {α : Type} (fromStrAssign : String → Option α)
    (leftHand : String → Bool) (p : Path) (args : List Meta) :
    Except ParseAttributeOptionError α :=
  match Path.get_ident p with
  | none => .error (.unacceptable .leftHandSideValuePathIsNotIdent)
  | some id =>
    if leftHand id then
      match parseArgsIdent args with
      | none => .error (.unacceptable .identParseError)
      | some s =>
        match fromStrAssign s with
        | some a => .ok a
        | none => .error (.unacceptable .rightHandValueInvalid)
    else .error (.acceptable .leftHandSideValueNotRecognized)

/-- generic `ParseOptionUtils::parse_option_utils` (`attribute_option.rs`):
dispatch on the three argument shapes -/
def parseOptionWith {α : Type} (fromStr fromStrAssign : String → Option α)
    (leftHand : String → Bool) : Meta → Except ParseAttributeOptionError α
  | .path p =>
    match (Path.get_ident p).bind fromStr with
    | some a => .ok a
    | none => .error (.acceptable .pathNotRecognized)
  | .nameValue p v => parseNameValueWith fromStrAssign leftHand p v
  | .list p args => parseMetaListWith fromStrAssign leftHand p args

/-- the visibility aspect (`visibility.rs`) -/
inductive Visibility where
  /-- `pub` -/
  | public : Visibility
  /-- no modifier (Rust default), the default value -/
  | priv : Visibility
  /-- `pub(crate)` / `pub(super)` style restricted visibility -/
  | crate (scope : Option String) : Visibility
deriving DecidableEq, Repr

namespace Visibility

/-- default visibility is private -/
def default : Visibility := .priv

/-- split a char list at the first occurrence of `c` (Rust `str::split_once`) -/
def splitOnceChar (c : Char) : List Char → Option (List Char × List Char)
  | [] => none
  | a :: rest =>
    if a = c then some ([], rest)
    else (splitOnceChar c rest).map (fun x => (a :: x.1, x.2))

/-- drop a final `)` if present (Rust `str::strip_suffix(')')`) -/
def stripSuffixParen (l : List Char) : Option (List Char) :=
  match l.reverse with
  | ')' :: rest => some rest.reverse
  | _ => none

/-- `Visibility::visibility_from_path_str`: the accepted spellings are
`pub`, `public`, `crate`, `private` and `pub(...)`. -/
def visibility_from_path_str (s : String) : Option Visibility :=
  if s = "pub" ∨ s = "public" then some .public
  else if s = "crate" then some (.crate none)
  else if s = "private" then some .priv
  else
    match splitOnceChar '(' s.toList with
    | some (left, right) =>
      if left = "pub".toList then
        match stripSuffixParen right with
        | some inner => some (.crate (some (String.mk inner)))
        | none => none
      else none
    | none => none

/-- left-hand trigger for the visibility aspect -/
def left_hand_path_accepted (p : String) : Bool := p == "visibility"

/-- `ParseOption::parse_option` for `Visibility` -/
def parse_option : Meta → Except ParseAttributeOptionError Visibility :=
  parseOptionWith visibility_from_path_str visibility_from_path_str
    left_hand_path_accepted

/-- `ToCode for Visibility`: the emitted visibility keyword fragment -/
def to_code : Visibility → String
  | .priv => ""
  | .public => "pub"
  | .crate none => "pub(crate)"
  | .crate (some s) => "pub(" ++ s ++ ")"

end Visibility

/-- the constness aspect (`const_ty.rs`) -/
inductive ConstTy where
  /-- plain `fn`, the default -/
  | nonConstant : ConstTy
  /-- `const fn` -/
  | constant : ConstTy
deriving DecidableEq, Repr

namespace ConstTy

/-- default constness is non-constant -/
def default : ConstTy := .nonConstant

/-- left-hand trigger for the constness aspect -/
def left_hand_path_accepted (p : String) : Bool :=
  p == "const" || p == "Const" || p == "constant" || p == "Constant"

/-- bare spellings: any trigger word used bare means constant -/
def parse_option_from_str (p : String) : Option ConstTy :=
  if left_hand_path_accepted p then some .constant else none

/-- assignment spellings: trigger words, `true` or `false` -/
def parse_option_from_str_assignment (p : String) : Option ConstTy :=
  (parse_option_from_str p).orElse (fun _ =>
    if p == "true" then some .constant
    else if p == "false" then some .nonConstant
    else none)

/-- `ConstTy`'s overridden `parse_name_value`: additionally accepts a
boolean literal on the right-hand side -/
def parse_name_value (p : Path) (v : Expr) :
    Except ParseAttributeOptionError ConstTy :=
  match Path.get_ident p with
  | none => .error (.unacceptable .leftHandSideValuePathIsNotIdent)
  | some id =>
    if left_hand_path_accepted id then
      match v with
      | .lit (.boolLit b) => .ok (if b then .constant else .nonConstant)
      | _ =>
        match get_string_literal v with
        | none => .error (.unacceptable .rightHandNameValueExprNotLitString)
        | some s =>
          match parse_option_from_str_assignment s with
          | some a => .ok a
          | none => .error (.unacceptable .rightHandValueInvalid)
    else .error (.acceptable .leftHandSideValueNotRecognized)

/-- `ParseOption::parse_option` for `ConstTy` (custom name-value handling) -/
def parse_option : Meta → Except ParseAttributeOptionError ConstTy
  | .path p =>
    match (Path.get_ident p).bind parse_option_from_str with
    | some a => .ok a
    | none => .error (.acceptable .pathNotRecognized)
  | .nameValue p v => parse_name_value p v
  | .list p args =>
    parseMetaListWith parse_option_from_str_assignment left_hand_path_accepted
      p args

end ConstTy

/-- the return-mode aspect (`getter_ty.rs`) -/
inductive GetterTy where
  /-- return the field by copy -/
  | copy : GetterTy
  /-- return the field by clone -/
  | clone : GetterTy
  /-- return the field by reference, the default -/
  | ref : GetterTy
deriving DecidableEq, Repr

namespace GetterTy

/-- default return mode is by reference -/
def default : GetterTy := .ref

/-- `GetterTy::parse_string`: the accepted value spellings -/
def parse_string (p : String) : Option GetterTy :=
  if p = "by_ref" ∨ p = "by ref" then some .ref
  else if p = "by_value" ∨ p = "by_copy" ∨ p = "copy" ∨ p = "Copy" then
    some .copy
  else if p = "by_clone" ∨ p = "clone" ∨ p = "Clone" then some .clone
  else none

/-- left-hand trigger for the return-mode aspect -/
def left_hand_path_accepted (p : String) : Bool :=
  p == "getter_ty" || p == "getter_type" || p == "Getter_ty" ||
    p == "Getter_type"

/-- `ParseOption::parse_option` for `GetterTy` -/
def parse_option : Meta → Except ParseAttributeOptionError GetterTy :=
  parseOptionWith parse_string parse_string left_hand_path_accepted

/-- `GetterTy::prefix_quote`: whether the emitted return type and body are
prefixed with `&` -/
def prefixAmp : GetterTy → Bool
  | .ref => true
  | .clone | .copy => false

/-- `GetterTy::suffix_quote`: whether the emitted body ends in `.clone()` -/
def suffixClone : GetterTy → Bool
  | .clone => true
  | .copy | .ref => false

end GetterTy

/-- the receiver-mode aspect (`self_ty.rs`) -/
inductive SelfTy where
  /-- `&self` receiver, the default -/
  | ref : SelfTy
  /-- `self` receiver by value -/
  | value : SelfTy
deriving DecidableEq, Repr

namespace SelfTy

/-- default receiver mode is by reference -/
def default : SelfTy := .ref

/-- bare spellings: none are enabled -/
def parse_option_from_str (_p : String) : Option SelfTy := none

/-- assignment spellings: `value`, `copy`, `move` and `ref` -/
def parse_option_from_str_assignment (p : String) : Option SelfTy :=
  (parse_option_from_str p).orElse (fun _ =>
    if p = "value" ∨ p = "copy" ∨ p = "move" then some .value
    else if p = "ref" then some .ref
    else none)

/-- left-hand trigger for the receiver-mode aspect -/
def left_hand_path_accepted (p : String) : Bool :=
  p == "self" || p == "self_ty" || p == "self_type" || p == "Self" ||
    p == "Self_ty" || p == "Self_type"

/-- `ParseOption::parse_option` for `SelfTy` -/
def parse_option : Meta → Except ParseAttributeOptionError SelfTy :=
  parseOptionWith parse_option_from_str parse_option_from_str_assignment
    left_hand_path_accepted

end SelfTy

/-- the name-override aspect (`name.rs`, `FunctionName`) -/
structure FunctionName where
  /-- the optional override identifier -/
  nameOpt : Option Ident
deriving DecidableEq, Repr

namespace FunctionName

/-- default: no override, derive the name from the field -/
def default : FunctionName := ⟨none⟩

/-- left-hand trigger for the name aspect -/
def left_hand_path_accepted (p : String) : Bool := p == "name"

/-- `FunctionName::parse_option_from_str_assignment`: every string is
accepted, an identifier is constructed from it with no validation
(`Ident::new` panics on an invalid identifier string). -/
def parse_option_from_str_assignment (s : String) :
    MayPanic (Option FunctionName) :=
  (Ident.new s).map (fun i => some ⟨some i⟩)

/-- `ParseOption::parse_option` for `FunctionName`.  The bare-path
recognizer always misses (a name can never be a bare flag);
the assignment recognizer can panic, so the result is wrapped in
`MayPanic`. -/
def parse_option (m : Meta) :
    MayPanic (Except ParseAttributeOptionError FunctionName) :=
  match m with
  | .path _ => .ok (.error (.acceptable .pathNotRecognized))
  | .nameValue p v =>
    match Path.get_ident p with
    | none => .ok (.error (.unacceptable .leftHandSideValuePathIsNotIdent))
    | some id =>
      if left_hand_path_accepted id then
        match get_string_literal v with
        | none => .ok (.error (.unacceptable .rightHandNameValueExprNotLitString))
        | some s =>
          (parse_option_from_str_assignment s).map (fun
            | some a => .ok a
            | none => .error (.unacceptable .rightHandValueInvalid))
      else .ok (.error (.acceptable .leftHandSideValueNotRecognized))
  | .list p args =>
    match Path.get_ident p with
    | none => .ok (.error (.unacceptable .leftHandSideValuePathIsNotIdent))
    | some id =>
      if left_hand_path_accepted id then
        match parseArgsIdent args with
        | none => .ok (.error (.unacceptable .identParseError))
        | some s =>
          (parse_option_from_str_assignment s).map (fun
            | some a => .ok a
            | none => .error (.unacceptable .rightHandValueInvalid))
      else .ok (.error (.acceptable .leftHandSideValueNotRecognized))

end FunctionName

/-- Rust types are opaque to the option compiler; model them by a string. -/
abbrev RustType := String

/-- how a field is accessed (`macro-utils`, `FieldName`): by identifier for a
named field, by position for a tuple field -/
inductive FieldName where
  /-- a named field -/
  | ident (i : Ident) : FieldName
  /-- a tuple-position field -/
  | index (n : Nat) : FieldName
deriving DecidableEq, Repr

/-- `FieldName::require_ident`: the identifier of a named field, `None` for a
tuple-position field -/
def FieldName.require_ident : FieldName → Option Ident
  | .ident i => some i
  | .index _ => none

/-- a `syn::Field`, restricted to what the getter derive inspects -/
structure SynField where
  /-- the `meta` of each attribute on the field -/
  attrs : List Meta
  /-- the field identifier, absent for tuple fields -/
  ident : Option Ident
  /-- the declared type -/
  ty : RustType

/-- `macro-utils` `Field`: a `syn::Field` together with its position -/
structure Field where
  /-- the syn field -/
  field : SynField
  /-- the position of the field, used for tuple structs -/
  index : Nat

/-- `macro-utils` `FieldInformation`: name-access and type of a field -/
structure FieldInformation where
  /-- the way to access the field -/
  field_name : FieldName
  /-- the declared type of the field -/
  ty : RustType
deriving DecidableEq, Repr

/-- `FieldName::from_field_part`: identifier when present, else the index -/
def FieldName.from_field_part (opt_ident : Option Ident) (index : Nat) :
    FieldName :=
  match opt_ident with
  | some i => .ident i
  | none => .index index

/-- `FieldInformation::from_field` -/
def FieldInformation.from_field (f : Field) : FieldInformation :=
  ⟨FieldName.from_field_part f.field.ident f.index, f.field.ty⟩

namespace FunctionName

/-- `FunctionName::name`: the override if set, else the field identifier;
`None` for an identless field with no override. -/
def name (n : FunctionName) (f : FieldName) : Option Ident :=
  n.nameOpt.orElse (fun _ => f.require_ident)

/-- `FunctionName::name_mut`: the override verbatim if set, else the field
identifier suffixed with `_mut`; `None` for an identless field with no
override. -/
def name_mut (n : FunctionName) (f : FieldName) : Option Ident :=
  n.nameOpt.orElse (fun _ => f.require_ident.map (fun i => i ++ "_mut"))

end FunctionName

/-- the mutable-getter accumulator (`option.rs`, `MutableGetterOption`) -/
structure MutableGetterOption where
  /-- visibility of the mutable getter -/
  visibility : Visibility
  /-- name of the mutable getter -/
  name : FunctionName
deriving DecidableEq, Repr

/-- the immutable-getter accumulator (`option.rs`, `ImmutableGetterOption`) -/
structure ImmutableGetterOption where
  /-- the embedded base options shared with the mutable getter -/
  option : MutableGetterOption
  /-- whether the getter is a `const fn` -/
  const_ty : ConstTy
  /-- whether the getter returns by reference, copy or clone -/
  ty : GetterTy
  /-- whether the receiver is borrowed or moved -/
  self_ty : SelfTy
deriving DecidableEq, Repr

/-- `Default for MutableGetterOption` -/
def MutableGetterOption.default : MutableGetterOption :=
  ⟨Visibility.default, FunctionName.default⟩

/-- `Default for ImmutableGetterOption` -/
def ImmutableGetterOption.default : ImmutableGetterOption :=
  ⟨MutableGetterOption.default, ConstTy.default, GetterTy.default,
    SelfTy.default⟩

/-- `MutableGetterOption::add_config`: try Visibility, then FunctionName.
On success the pair (matched aspect, updated config) is returned; on error
the config is unchanged.  The result is wrapped in `MayPanic` because the
name aspect can panic. -/
def MutableGetterOption.add_config (s : MutableGetterOption) (m : Meta) :
    MayPanic (Except (AddConfigError MutableOptionList)
      (MutableOptionList × MutableGetterOption)) :=
  match Visibility.parse_option m with
  | .ok vis => .ok (.ok (.visibility, { s with visibility := vis }))
  | .error (.unacceptable err) => .ok (.error (.unacceptable err .visibility))
  | .error (.acceptable _) =>
    (FunctionName.parse_option m).map (fun
      | .ok n => .ok (.identOption, { s with name := n })
      | .error (.unacceptable err) => .error (.unacceptable err .identOption)
      | .error (.acceptable e) => .error (.acceptable e))

/-- `ImmutableGetterOption::add_config`: delegate to the embedded mutable
accumulator, then try ConstTy, GetterTy and SelfTy in that fixed order. -/
def ImmutableGetterOption.add_config (s : ImmutableGetterOption) (m : Meta) :
    MayPanic (Except (AddConfigError ImmutableOptionList)
      (ImmutableOptionList × ImmutableGetterOption)) :=
  (s.option.add_config m).bind (fun
    | .ok x => .ok (.ok (.mutableOption x.1, { s with option := x.2 }))
    | .error (.unacceptable err o) =>
      .ok (.error (.unacceptable err (.mutableOption o)))
    | .error (.acceptable _) =>
      match ConstTy.parse_option m with
      | .ok c => .ok (.ok (.constTy, { s with const_ty := c }))
      | .error (.unacceptable err) => .ok (.error (.unacceptable err .constTy))
      | .error (.acceptable _) =>
        match GetterTy.parse_option m with
        | .ok t => .ok (.ok (.getterTy, { s with ty := t }))
        | .error (.unacceptable err) =>
          .ok (.error (.unacceptable err .getterTy))
        | .error (.acceptable _) =>
          match SelfTy.parse_option m with
          | .ok st => .ok (.ok (.selfTy, { s with self_ty := st }))
          | .error (.unacceptable err) =>
            .ok (.error (.unacceptable err .selfTy))
          | .error (.acceptable e) => .ok (.error (.acceptable e)))

/-- the loop of `ParseGetterOption::parse` (`option.rs`): fold the argument
list through `add_config`, tracking the set of aspects already matched.
A successful match of an aspect already in the set aborts with the
duplicate error; an acceptable error skips the argument; an unacceptable
error aborts with `AddConfigError`. -/
def runParse {σ L : Type} [DecidableEq L]
    (addCfg : σ → Meta → MayPanic (Except (AddConfigError L) (L × σ)))
    (s : σ) (set : List L) :
    List Meta → MayPanic (Except (GetterParseError L) σ)
  | [] => .ok (.ok s)
  | m :: rest =>
    (addCfg s m).bind (fun
      | .ok x =>
        if x.1 ∈ set then
          .ok (.error (.fieldAttributeOptionSetMultipleTimes x.1))
        else runParse addCfg x.2 (x.1 :: set) rest
      | .error (.acceptable _) => runParse addCfg s set rest
      | .error (.unacceptable e o) => .ok (.error (.addConfigError e o)))

/-- `ParseGetterOption::parse` for `ImmutableGetterOption` -/
def ImmutableGetterOption.parse (args : List Meta) :
    MayPanic (Except (GetterParseError ImmutableOptionList)
      ImmutableGetterOption) :=
  runParse ImmutableGetterOption.add_config ImmutableGetterOption.default []
    args

/-- `ParseGetterOption::parse` for `MutableGetterOption` -/
def MutableGetterOption.parse (args : List Meta) :
    MayPanic (Except (GetterParseError MutableOptionList)
      MutableGetterOption) :=
  runParse MutableGetterOption.add_config MutableGetterOption.default [] args

/-- `MutableGetterOption::validate`: always succeeds -/
def MutableGetterOption.validate (_s : MutableGetterOption) :
    Except OptionValidationError Unit := .ok ()

/-- `ImmutableGetterOption::validate`: receiver by value combined with
return by reference is rejected -/
def ImmutableGetterOption.validate (s : ImmutableGetterOption) :
    Except OptionValidationError Unit :=
  match s.option.validate with
  | .error e => .error e
  | .ok _ =>
    if s.self_ty = .value ∧ s.ty = .ref then .error .selfMoveOnReturnRef
    else .ok ()

/-- which getter kinds are selected (`which_getter.rs`, `WhichGetter`) -/
inductive WhichGetter where
  /-- only the immutable getter -/
  | immutable (i : ImmutableGetterOption) : WhichGetter
  /-- only the mutable getter -/
  | mutable (m : MutableGetterOption) : WhichGetter
  /-- both getters -/
  | both (immutable : ImmutableGetterOption) (mutable : MutableGetterOption) :
      WhichGetter
deriving DecidableEq, Repr

/-- `WhichGetter::add_config`: merge two selections, the second taking
priority -/
def WhichGetter.add_config : WhichGetter → WhichGetter → WhichGetter
  | .mutable _, .mutable m => .mutable m
  | .immutable i, .mutable m => .both i m
  | .both i _, .mutable m => .both i m
  | .mutable m, .immutable i => .both i m
  | .both _ m, .immutable i => .both i m
  | .immutable _, .immutable i => .immutable i
  | _, .both i m => .both i m

/-- `WhichGetter::validate` -/
def WhichGetter.validate : WhichGetter → Except OptionValidationError Unit
  | .immutable i => i.validate
  | .mutable m => m.validate
  | .both i m =>
    match m.validate with
    | .error e => .error e
    | .ok _ => i.validate

/-- the resolved getter option of one field (`option.rs`, `GetterOption`) -/
structure GetterOption where
  /-- the field information -/
  field : FieldInformation
  /-- the selected getter kinds and their configs -/
  which : WhichGetter
deriving DecidableEq, Repr

/-- parse errors of `GetterOption::parse` (`error.rs`, `OptionParseError`).
The `ExprParseError` variant (a raw `syn` failure when splitting the
argument list) is not modelled: argument lists arrive pre-parsed in this
embedding. -/
inductive OptionParseError where
  /-- the attribute uses the unsupported `#[get = "..."]` name-value form -/
  | nameValue : OptionParseError
  /-- no `#[get]` or `#[get_mut]` attribute found on the field -/
  | notFound : OptionParseError
  /-- error from the accumulator -/
  | getterParseError (e : GetterParseError ImmutableOptionList) :
      OptionParseError
  /-- error from validation -/
  | optionValidationError (e : OptionValidationError) : OptionParseError
deriving DecidableEq, Repr

/-- `From<GetterParseError<MutableOptionList>>` for
`GetterParseError<ImmutableOptionList>` -/
def liftMutErr (e : GetterParseError MutableOptionList) :
    GetterParseError ImmutableOptionList :=
  match e with
  | .fieldAttributeOptionSetMultipleTimes o =>
    .fieldAttributeOptionSetMultipleTimes (.mutableOption o)
  | .addConfigError err o => .addConfigError err (.mutableOption o)

/-- `GetterOption::validate`: per selected kind, the accessor name must be
derivable; then `WhichGetter::validate`. -/
def GetterOption.validate (g : GetterOption) :
    Except OptionValidationError Unit :=
  match g.which with
  | .immutable i =>
    if (i.option.name.name g.field.field_name).isNone then
      .error .functionNameMissing
    else g.which.validate
  | .mutable m =>
    if (m.name.name_mut g.field.field_name).isNone then
      .error .functionNameMissing
    else g.which.validate
  | .both i m =>
    if (i.option.name.name g.field.field_name).isNone ∨
        (m.name.name_mut g.field.field_name).isNone then
      .error .functionNameMissing
    else g.which.validate

/-- `add_option_config` inside `GetterOption::parse`: merge with the running
selection when one exists -/
def add_option_config (out : Option WhichGetter) (which : WhichGetter) :
    WhichGetter :=
  match out with
  | some s => s.add_config which
  | none => which

/-- the attribute loop of `GetterOption::parse`: dispatch each attribute on
its shape and name -/
def GetterOption.parseLoop (out : Option WhichGetter) :
    List Meta → MayPanic (Except OptionParseError (Option WhichGetter))
  | [] => .ok (.ok out)
  | attr :: rest =>
    match attr with
    | .list p args =>
      if Path.isIdent p "get" then
        (ImmutableGetterOption.parse args).bind (fun
          | .ok opt =>
            GetterOption.parseLoop
              (some (add_option_config out (.immutable opt))) rest
          | .error e => .ok (.error (.getterParseError e)))
      else if Path.isIdent p "get_mut" then
        (MutableGetterOption.parse args).bind (fun
          | .ok opt =>
            GetterOption.parseLoop
              (some (add_option_config out (.mutable opt))) rest
          | .error e => .ok (.error (.getterParseError (liftMutErr e))))
      else GetterOption.parseLoop out rest
    | .path p =>
      if Path.isIdent p "get" then
        GetterOption.parseLoop
          (some (add_option_config out
            (.immutable ImmutableGetterOption.default))) rest
      else if Path.isIdent p "get_mut" then
        GetterOption.parseLoop
          (some (add_option_config out
            (.mutable MutableGetterOption.default))) rest
      else GetterOption.parseLoop out rest
    | .nameValue p _ =>
      if Path.isIdent p "get" || Path.isIdent p "get_mut" then
        .ok (.error .nameValue)
      else GetterOption.parseLoop out rest

/-- turn the accumulated selection into the final validated result -/
def GetterOption.finalize (f : Field) :
    Except OptionParseError (Option WhichGetter) →
    Except OptionParseError GetterOption
  | .error e => .error e
  | .ok none => .error .notFound
  | .ok (some w) =>
    let g : GetterOption := ⟨FieldInformation.from_field f, w⟩
    match g.validate with
    | .error e => .error (.optionValidationError e)
    | .ok _ => .ok g

/-- `GetterOption::parse`: scan the field's attributes, merge the
per-attribute configs, then validate -/
def GetterOption.parse (f : Field) :
    MayPanic (Except OptionParseError GetterOption) :=
  (GetterOption.parseLoop none f.field.attrs).map (GetterOption.finalize f)

/-- one emitted accessor declaration, as the resolved fragments spliced by
the `quote!` templates of `option.rs` -/
inductive AccessorDecl where
  /-- the immutable getter `#vis #const fn #name(#selfTy self) -> #pre #ty` -/
  | immutableFn (vis : String) (isConst : Bool) (name : Ident)
      (selfByRef : Bool) (retRef : Bool) (retClone : Bool)
      (fieldName : FieldName) (ty : RustType) : AccessorDecl
  /-- the mutable getter `#vis fn #name(&mut self) -> &mut #ty` -/
  | mutableFn (vis : String) (name : Ident) (fieldName : FieldName)
      (ty : RustType) : AccessorDecl
deriving DecidableEq, Repr

/-- `ToCode for ImmutableGetterOption`: panics (`expect("no field name")`)
when no accessor name is derivable -/
def ImmutableGetterOption.to_code (s : ImmutableGetterOption)
    (fi : FieldInformation) : MayPanic AccessorDecl :=
  match s.option.name.name fi.field_name with
  | none => .panicked
  | some n =>
    .ok (.immutableFn (s.option.visibility.to_code) (s.const_ty = .constant) n
      (s.self_ty = .ref) (s.ty.prefixAmp) (s.ty.suffixClone) fi.field_name
      fi.ty)

/-- `ToCode for MutableGetterOption`: panics (`expect("no field name")`)
when no accessor name is derivable -/
def MutableGetterOption.to_code (s : MutableGetterOption)
    (fi : FieldInformation) : MayPanic AccessorDecl :=
  match s.name.name_mut fi.field_name with
  | none => .panicked
  | some n => .ok (.mutableFn (s.visibility.to_code) n fi.field_name fi.ty)

/-- `ToCode for WhichGetter`: one declaration per selected kind, immutable
first -/
def WhichGetter.to_code (w : WhichGetter) (fi : FieldInformation) :
    MayPanic (List AccessorDecl) :=
  match w with
  | .immutable i => (i.to_code fi).map (fun d => [d])
  | .mutable m => (m.to_code fi).map (fun d => [d])
  | .both i m =>
    (i.to_code fi).bind (fun di => (m.to_code fi).map (fun dm => [di, dm]))

/-- `ToTokens for GetterOption` -/
def GetterOption.to_code (g : GetterOption) : MayPanic (List AccessorDecl) :=
  g.which.to_code g.field

/-- `Display` of `MutableOptionList` -/
def MutableOptionList.toStr : MutableOptionList → String
  | .visibility => "visibility"
  | .identOption => "name"

/-- `Display` of `ImmutableOptionList` -/
def ImmutableOptionList.toStr : ImmutableOptionList → String
  | .mutableOption o => o.toStr
  | .constTy => "const"
  | .getterTy => "getter type"
  | .selfTy => "self type"

/-- `Display` of `UnacceptableParseError` (the `syn` payload of
`IdentParseError` is not modelled, its message is elided) -/
def UnacceptableParseError.toStr : UnacceptableParseError → String
  | .rightHandValueInvalid =>
    "right hand value in assignment is misformed or invalid"
  | .identParseError => "syn ident parse error"
  | .leftHandSideValuePathIsNotIdent =>
    "the left hand side path in an assignment has multiple section and is therefore not a ident"
  | .rightHandNameValueExprNotLitString =>
    "the right hand side value is not a literal string when it is expected"

/-- `Display` of `GetterParseError` -/
def GetterParseError.toStr (e : GetterParseError ImmutableOptionList) :
    String :=
  match e with
  | .fieldAttributeOptionSetMultipleTimes o =>
    o.toStr ++ " is set multiple times"
  | .addConfigError err o =>
    "got error " ++ err.toStr ++ " while parsing option " ++ o.toStr

/-- `Display` of `OptionValidationError` -/
def OptionValidationError.toStr : OptionValidationError → String
  | .functionNameMissing =>
    "name = \"#\" is missing and there is no default name for tuple struct"
  | .selfMoveOnReturnRef =>
    "self_ty is value but getter_ty is reference which is not valid, it create a dandling reference which the borrow checker reject"

/-- `Display` of `OptionParseError` -/
def OptionParseError.toStr : OptionParseError → String
  | .nameValue =>
    "field attribute is not supported in name value mode, please refer to the documentation"
  | .notFound => "attribute #[get] or #[get_mut] not found"
  | .getterParseError e => e.toStr
  | .optionValidationError e => e.toStr

/-- one element of the generated implementation block: the emitted accessor
declarations of a successful field, or a per-field `compile_error!`
fragment -/
inductive Item where
  /-- the accessors emitted for one field -/
  | code (decls : List AccessorDecl) : Item
  /-- a per-field compile-time diagnostic -/
  | compileErrorItem (msg : String) : Item
deriving DecidableEq, Repr

/-- the output token stream of the derive: either one top-level
`compile_error!` or the generated implementation block -/
inductive DeriveOutput where
  /-- a single top-level compile-time diagnostic -/
  | compileError (msg : String) : DeriveOutput
  /-- the generated `impl` block with its items -/
  | implBlock (items : List Item) : DeriveOutput
deriving DecidableEq, Repr

/-- the fields of a struct (`syn::Fields`) -/
inductive StructFields where
  /-- named fields -/
  | named (fs : List SynField) : StructFields
  /-- tuple fields -/
  | unnamed (fs : List SynField) : StructFields
  /-- a unit struct -/
  | unit : StructFields

/-- the data of a derive input (`syn::Data`) -/
inductive Data where
  /-- a struct -/
  | structData (f : StructFields) : Data
  /-- an enum -/
  | enumData : Data
  /-- a union -/
  | unionData : Data

/-- a derive input (`syn::DeriveInput`), restricted to its data -/
structure DeriveInput where
  /-- the data part -/
  data : Data

/-- the per-field loop of `derive` (`getter/mod.rs`): parse each field's
option; `NotFound` skips the field, any other parse error contributes a
per-field `compile_error!` fragment, success contributes the emitted
accessors -/
def collectFields : Nat → List SynField →
    MayPanic (List Item)
  | _, [] => .ok []
  | i, f :: fs =>
    (GetterOption.parse ⟨f, i⟩).bind (fun
      | .ok g =>
        (g.to_code).bind (fun decls =>
          (collectFields (i + 1) fs).map (fun rest => Item.code decls :: rest))
      | .error OptionParseError.notFound => collectFields (i + 1) fs
      | .error e =>
        (collectFields (i + 1) fs).map (fun rest =>
          Item.compileErrorItem ("error parsing option: " ++ e.toStr) :: rest))

/-- the fixed top-level diagnostic used when no field produced anything -/
def noFieldAttrMsg : String := "no field has attribute #[get] or #[get_mut]"

/-- `derive` (`getter/mod.rs`): dispatch on the input data, iterate the
fields, and produce either the implementation block or a single top-level
diagnostic -/
def derive (input : DeriveInput) : MayPanic DeriveOutput :=
  match input.data with
  | .structData .unit =>
    .ok (.compileError "The trait getter cannot be derive on fieldless struct")
  | .structData (.named fs) | .structData (.unnamed fs) =>
    (collectFields 0 fs).map (fun items =>
      if items.isEmpty then .compileError noFieldAttrMsg
      else .implBlock items)
  | .enumData => .ok (.compileError "cannot derive getter for enums yet")
  | .unionData => .ok (.compileError "cannot derive getter for unions yet")

/-! ### Helper definitions for the claims -/

/-- the name the resolved option gives to the immutable accessor, when an
immutable accessor is selected -/
def resolvedImmutableName (g : GetterOption) : Option Ident :=
  match g.which with
  | .immutable i => i.option.name.name g.field.field_name
  | .both i _ => i.option.name.name g.field.field_name
  | .mutable _ => none

/-- whether an aspect parse result is a recoverable (acceptable) miss -/
def isAcceptErr {α : Type} : Except ParseAttributeOptionError α → Bool
  | .error (.acceptable _) => true
  | _ => false

/-- whether a possibly-panicking aspect parse result is a recoverable
(acceptable) miss -/
def isAcceptErrP {α : Type} :
    MayPanic (Except ParseAttributeOptionError α) → Bool
  | .ok (.error (.acceptable _)) => true
  | _ => false

/-- an argument is recognized by no aspect of the mutable accumulator -/
def acceptableForMutable (m : Meta) : Bool :=
  isAcceptErr (Visibility.parse_option m) &&
    isAcceptErrP (FunctionName.parse_option m)

/-- an argument is recognized by no aspect of the immutable accumulator -/
def acceptableForImmutable (m : Meta) : Bool :=
  acceptableForMutable m &&
    isAcceptErr (ConstTy.parse_option m) &&
    isAcceptErr (GetterTy.parse_option m) &&
    isAcceptErr (SelfTy.parse_option m)

/-- the successful-prefix run of the accumulation loop: the state and the
matched-aspect set reached after processing a list of arguments during which
every argument either matched a fresh aspect or was an acceptable miss;
`none` when the loop would have aborted (or panicked) inside the list -/
def runParseState {σ L : Type} [DecidableEq L]
    (addCfg : σ → Meta → MayPanic (Except (AddConfigError L) (L × σ)))
    (s : σ) (set : List L) : List Meta → Option (σ × List L)
  | [] => some (s, set)
  | m :: rest =>
    match addCfg s m with
    | .ok (.ok x) =>
      if x.1 ∈ set then none
      else runParseState addCfg x.2 (x.1 :: set) rest
    | .ok (.error (.acceptable _)) => runParseState addCfg s set rest
    | .ok (.error (.unacceptable _ _)) => none
    | .panicked => none

/-- every field of the list is skipped by the derive because its option
parse reports `NotFound` -/
def allSkipped : Nat → List SynField → Bool
  | _, [] => true
  | i, f :: fs =>
    match GetterOption.parse ⟨f, i⟩ with
    | .ok (.error .notFound) => allSkipped (i + 1) fs
    | _ => false

/-- a named field `field: u32` with `#[get(name = "first")]` then
`#[get(name = "second")]` -/
def fieldTwoGetNames : Field :=
  ⟨⟨[Meta.list ["get"] [Meta.nameValue ["name"] (Expr.lit (Lit.str "first"))],
     Meta.list ["get"] [Meta.nameValue ["name"] (Expr.lit (Lit.str "second"))]],
    some "field", "u32"⟩, 0⟩

/-- the resolution of `fieldTwoGetNames`: an immutable getter named
`second` -/
def resolvedTwoGetNames : GetterOption :=
  ⟨⟨.ident "field", "u32"⟩,
    .immutable ⟨⟨.priv, ⟨some "second"⟩⟩, .nonConstant, .ref, .ref⟩⟩

/-- a named field `a: u32` with `#[get(self_ty = "value", getter_ty = "ref")]` -/
def fieldSelfValueGetterRef : Field :=
  ⟨⟨[Meta.list ["get"] [Meta.nameValue ["self_ty"] (Expr.lit (Lit.str "value")),
      Meta.nameValue ["getter_ty"] (Expr.lit (Lit.str "ref"))]],
    some "a", "u32"⟩, 0⟩

/-- a named field `a: u32` with `#[get(self_ty = "value")]` (return mode left
at its by-reference default) -/
def fieldSelfValueDefault : Field :=
  ⟨⟨[Meta.list ["get"] [Meta.nameValue ["self_ty"] (Expr.lit (Lit.str "value"))]],
    some "a", "u32"⟩, 0⟩

/-- a named field `a: u32` with
`#[get(self_ty = "value", getter_ty = "by_ref")]` (the accepted by-reference
spelling) -/
def fieldSelfValueByRef : Field :=
  ⟨⟨[Meta.list ["get"] [Meta.nameValue ["self_ty"] (Expr.lit (Lit.str "value")),
      Meta.nameValue ["getter_ty"] (Expr.lit (Lit.str "by_ref"))]],
    some "a", "u32"⟩, 0⟩

/-- a named field `a: u32` with `#[get(self_ty = "value", getter_ty = "copy")]` -/
def fieldSelfValueCopy : Field :=
  ⟨⟨[Meta.list ["get"] [Meta.nameValue ["self_ty"] (Expr.lit (Lit.str "value")),
      Meta.nameValue ["getter_ty"] (Expr.lit (Lit.str "copy"))]],
    some "a", "u32"⟩, 0⟩

/-- the resolution of `fieldSelfValueCopy` -/
def resolvedSelfValueCopy : GetterOption :=
  ⟨⟨.ident "a", "u32"⟩,
    .immutable ⟨⟨.priv, ⟨none⟩⟩, .nonConstant, .copy, .value⟩⟩

/-- a tuple-position field of type `u32` with bare `#[get]` -/
def tupleBareGet : Field := ⟨⟨[Meta.path ["get"]], none, "u32"⟩, 0⟩

/-- a tuple-position field of type `u32` with bare `#[get_mut]` -/
def tupleBareGetMut : Field := ⟨⟨[Meta.path ["get_mut"]], none, "u32"⟩, 0⟩

/-- a tuple-position field of type `u32` with bare `#[get]` and `#[get_mut]` -/
def tupleBareBoth : Field :=
  ⟨⟨[Meta.path ["get"], Meta.path ["get_mut"]], none, "u32"⟩, 0⟩

/-- a tuple-position field of type `u32` with `#[get(name = "x")]` -/
def tupleFieldNamedX : Field :=
  ⟨⟨[Meta.list ["get"] [Meta.nameValue ["name"] (Expr.lit (Lit.str "x"))]],
    none, "u32"⟩, 0⟩

/-- the resolution of `tupleFieldNamedX` -/
def resolvedTupleNamedX : GetterOption :=
  ⟨⟨.index 0, "u32"⟩,
    .immutable ⟨⟨.priv, ⟨some "x"⟩⟩, .nonConstant, .ref, .ref⟩⟩

/-- a named field `a: u32` carrying the unsupported name-value attribute
`#[get = "x"]` -/
def fieldNameValueAttr : SynField :=
  ⟨[Meta.nameValue ["get"] (Expr.lit (Lit.str "x"))], some "a", "u32"⟩

/-- a named field `a: u32` with bare `#[get]` -/
def namedBareGet : Field := ⟨⟨[Meta.path ["get"]], some "a", "u32"⟩, 0⟩

/-- the resolution of `namedBareGet` -/
def resolvedNamedBareGet : GetterOption :=
  ⟨⟨.ident "a", "u32"⟩, .immutable ImmutableGetterOption.default⟩

/-! ### Claims -/

/-- a successful prefix run of the accumulation loop composes with the loop
on the remaining arguments -/
theorem runParseState_sound {σ L : Type} [DecidableEq L]
    (addCfg : σ → Meta → MayPanic (Except (AddConfigError L) (L × σ)))
    (l₁ : List Meta) : ∀ (s : σ) (set : List L) (s₁ : σ) (set₁ : List L)
      (l₂ : List Meta),
      runParseState addCfg s set l₁ = some (s₁, set₁) →
      runParse addCfg s set (l₁ ++ l₂) = runParse addCfg s₁ set₁ l₂ := by
  induction l₁ with
  | nil =>
    intro s set s₁ set₁ l₂ h
    rw [runParseState] at h
    simp only [Option.some.injEq, Prod.mk.injEq] at h
    rw [h.1, h.2]
    simp
  | cons a l ih =>
    intro s set s₁ set₁ l₂ h
    rw [runParseState] at h
    cases haa : addCfg s a with
    | panicked => rw [haa] at h; simp at h
    | ok v =>
      cases v with
      | ok x =>
        rw [haa] at h
        dsimp only at h
        by_cases hx : x.1 ∈ set
        · rw [if_pos hx] at h; simp at h
        · rw [if_neg hx] at h
          simp only [List.cons_append]
          rw [runParse, haa]
          simp only [MayPanic.bind, hx, if_false]
          exact ih x.2 (x.1 :: set) s₁ set₁ l₂ h
      | error err =>
        cases err with
        | acceptable e =>
          rw [haa] at h
          simp only [List.cons_append]
          rw [runParse, haa]
          simp only [MayPanic.bind]
          exact ih s set s₁ set₁ l₂ h
        | unacceptable e o => rw [haa] at h; simp at h

/-- C1: inside a single getter argument list, whenever an argument anywhere
in the list successfully sets an aspect that an earlier argument of the list
already set (the earlier arguments having accumulated without error, with
`o` among their matched aspects), accumulation fails at that argument with
`FieldAttributeOptionSetMultipleTimes` for that aspect, whatever arguments
follow; neither value is silently kept. -/
theorem duplicate_aspect_aborts_parse (l₁ : List Meta) (m : Meta)
    (rest : List Meta) (o : ImmutableOptionList)
    (s₁ s₂ : ImmutableGetterOption) (set₁ : List ImmutableOptionList)
    (hrun : runParseState ImmutableGetterOption.add_config
      ImmutableGetterOption.default [] l₁ = some (s₁, set₁))
    (hdup : o ∈ set₁)
    (hm : ImmutableGetterOption.add_config s₁ m = .ok (.ok (o, s₂))) :
    ImmutableGetterOption.parse (l₁ ++ m :: rest) =
      .ok (.error (.fieldAttributeOptionSetMultipleTimes o)) := by
  unfold ImmutableGetterOption.parse
  rw [runParseState_sound ImmutableGetterOption.add_config l₁ _ _ _ _ _
    hrun]
  rw [runParse, hm]
  simp [MayPanic.bind, hdup]

/-- C1 witness: `#[get(pub, name = "a", name = "b", crate)]` — the duplicate
name aspect sits after another matched aspect and aborts the parse with the
duplicate-name error before the trailing argument. -/
theorem duplicate_aspect_aborts_parse_witness :
    ImmutableGetterOption.parse
      [Meta.path ["pub"],
       Meta.nameValue ["name"] (Expr.lit (Lit.str "a")),
       Meta.nameValue ["name"] (Expr.lit (Lit.str "b")),
       Meta.path ["crate"]] =
      .ok (.error (.fieldAttributeOptionSetMultipleTimes
        (.mutableOption .identOption))) :=
  duplicate_aspect_aborts_parse
    [Meta.path ["pub"], Meta.nameValue ["name"] (Expr.lit (Lit.str "a"))]
    (Meta.nameValue ["name"] (Expr.lit (Lit.str "b")))
    [Meta.path ["crate"]]
    (.mutableOption .identOption)
    ⟨⟨.public, ⟨some "a"⟩⟩, .nonConstant, .ref, .ref⟩
    ⟨⟨.public, ⟨some "b"⟩⟩, .nonConstant, .ref, .ref⟩
    [.mutableOption .identOption, .mutableOption .visibility]
    (by decide) (by decide) (by decide)

/-- C2: merging accessor-kind configs: a later same-kind config replaces the
earlier one wholesale, an immutable config merged into a mutable one (or
vice versa) yields `Both` keeping both halves; concretely, a field with
`#[get(name = "first")]` then `#[get(name = "second")]` resolves to an
immutable accessor emitted with the name `second`. -/
theorem later_attribute_config_wins :
    (∀ i i', (WhichGetter.immutable i).add_config (.immutable i') =
      .immutable i')
    ∧ (∀ i m, (WhichGetter.immutable i).add_config (.mutable m) = .both i m)
    ∧ (∀ m i, (WhichGetter.mutable m).add_config (.immutable i) = .both i m)
    ∧ (∀ m m', (WhichGetter.mutable m).add_config (.mutable m') = .mutable m')
    ∧ (∀ i m i', (WhichGetter.both i m).add_config (.immutable i') =
      .both i' m)
    ∧ (∀ i m m', (WhichGetter.both i m).add_config (.mutable m') =
      .both i m')
    ∧ GetterOption.parse fieldTwoGetNames = .ok (.ok resolvedTwoGetNames)
    ∧ resolvedImmutableName resolvedTwoGetNames = some "second"
    ∧ resolvedTwoGetNames.to_code =
      .ok [.immutableFn "" false "second" true true false
        (.ident "field") "u32"] :=
  ⟨fun _ _ => rfl, fun _ _ => rfl, fun _ _ => rfl, fun _ _ => rfl,
    fun _ _ _ => rfl, fun _ _ _ => rfl, by decide, by decide, by decide⟩

/-- C3 counterexample: `#[get(self_ty = "value", getter_ty = "ref")]` does
NOT fail with `SelfMoveOnReturnRef`: the string `ref` is not an accepted
`getter_ty` value spelling (only `by_ref` / `by ref` are), so the parse
aborts earlier with `RightHandValueInvalid` on the return-mode aspect. -/
theorem getter_ty_ref_spelling_rejected :
    GetterOption.parse fieldSelfValueGetterRef =
      .ok (.error (.getterParseError
        (.addConfigError .rightHandValueInvalid .getterTy)))
    ∧ GetterOption.parse fieldSelfValueGetterRef ≠
      .ok (.error (.optionValidationError .selfMoveOnReturnRef)) := by
  decide

/-- C3 (amended): an immutable config validates to `SelfMoveOnReturnRef`
exactly when the receiver is by value and the return mode by reference;
`#[get(self_ty = "value")]` (return mode left at its by-reference default)
and `#[get(self_ty = "value", getter_ty = "by_ref")]` (the accepted
by-reference spelling) fail with `SelfMoveOnReturnRef`, while
`#[get(self_ty = "value", getter_ty = "copy")]` succeeds. -/
theorem self_move_on_return_ref_validation :
    (∀ opt : ImmutableGetterOption,
      opt.validate = .error .selfMoveOnReturnRef ↔
        (opt.self_ty = .value ∧ opt.ty = .ref))
    ∧ GetterOption.parse fieldSelfValueDefault =
      .ok (.error (.optionValidationError .selfMoveOnReturnRef))
    ∧ GetterOption.parse fieldSelfValueByRef =
      .ok (.error (.optionValidationError .selfMoveOnReturnRef))
    ∧ GetterOption.parse fieldSelfValueCopy = .ok (.ok resolvedSelfValueCopy) := by
  refine ⟨fun opt => ?_, by decide, by decide, by decide⟩
  unfold ImmutableGetterOption.validate MutableGetterOption.validate
  by_cases h : opt.self_ty = .value ∧ opt.ty = .ref
  · simp [h]
  · simp [h]

/-- C4 counterexample: the bare spelling `Public` (capital P) is NOT an
accepted visibility spelling: `#[get(Public)]` is skipped as an acceptable
miss, the config keeps the default `Private`, and the emitted visibility
keyword fragment differs from the one `public` produces. -/
theorem visibility_capital_public_not_recognized :
    Visibility.parse_option (Meta.path ["Public"]) =
      .error (.acceptable .pathNotRecognized)
    ∧ ImmutableGetterOption.parse [Meta.path ["Public"]] =
      .ok (.ok ImmutableGetterOption.default)
    ∧ ImmutableGetterOption.default.option.visibility = .priv
    ∧ Visibility.to_code .priv ≠ Visibility.to_code .public := by
  decide

/-- C4 (amended): the spellings `public`, `pub` (bare) and
`visibility = "public"` (assignment) all resolve to the identical
`Visibility::Public` value whose emitted keyword fragment is `pub`; the bare
spelling `Public` is not recognized and is skipped as an acceptable miss. -/
theorem visibility_spelling_variants :
    Visibility.parse_option (Meta.path ["public"]) = .ok .public
    ∧ Visibility.parse_option (Meta.path ["pub"]) = .ok .public
    ∧ Visibility.parse_option
        (Meta.nameValue ["visibility"] (Expr.lit (Lit.str "public"))) =
      .ok .public
    ∧ Visibility.to_code .public = "pub"
    ∧ Visibility.parse_option (Meta.path ["Public"]) =
      .error (.acceptable .pathNotRecognized) := by
  decide

/-- C5: a field with no identifier and no explicit name override fails
validation with `FunctionNameMissing` whichever accessor kind is selected
(immutable, mutable or both, each checked); concretely, bare `#[get]`,
`#[get_mut]` and their combination on a tuple-position field all fail that
way, while `#[get(name = "x")]` succeeds and the emitted accessor is named
exactly `x`. -/
theorem tuple_field_missing_name_validation (fi : FieldInformation) (k : Nat)
    (imm : ImmutableGetterOption) (mo : MutableGetterOption)
    (hfn : fi.field_name = .index k) (h₁ : imm.option.name = ⟨none⟩)
    (h₂ : mo.name = ⟨none⟩) :
    (GetterOption.validate ⟨fi, .immutable imm⟩ = .error .functionNameMissing
    ∧ GetterOption.validate ⟨fi, .mutable mo⟩ = .error .functionNameMissing
    ∧ GetterOption.validate ⟨fi, .both imm mo⟩ =
      .error .functionNameMissing)
    ∧ (GetterOption.parse tupleBareGet =
      .ok (.error (.optionValidationError .functionNameMissing))
    ∧ GetterOption.parse tupleBareGetMut =
      .ok (.error (.optionValidationError .functionNameMissing))
    ∧ GetterOption.parse tupleBareBoth =
      .ok (.error (.optionValidationError .functionNameMissing))
    ∧ GetterOption.parse tupleFieldNamedX = .ok (.ok resolvedTupleNamedX)
    ∧ resolvedTupleNamedX.to_code =
      .ok [.immutableFn "" false "x" true true false (.index 0) "u32"]) := by
  refine ⟨⟨?_, ?_, ?_⟩, by decide, by decide, by decide, by decide, by decide⟩
  all_goals
    simp [GetterOption.validate, FunctionName.name, FunctionName.name_mut,
      FieldName.require_ident, Option.orElse, hfn, h₁, h₂]

/-- C5 witness: the validation half applied to a concrete identless field
with all-default configs. -/
theorem tuple_field_missing_name_validation_witness :
    (GetterOption.validate
        ⟨⟨.index 0, "u32"⟩, .immutable ImmutableGetterOption.default⟩ =
      .error .functionNameMissing
    ∧ GetterOption.validate
        ⟨⟨.index 0, "u32"⟩, .mutable MutableGetterOption.default⟩ =
      .error .functionNameMissing
    ∧ GetterOption.validate
        ⟨⟨.index 0, "u32"⟩,
          .both ImmutableGetterOption.default MutableGetterOption.default⟩ =
      .error .functionNameMissing)
    ∧ (GetterOption.parse tupleBareGet =
      .ok (.error (.optionValidationError .functionNameMissing))
    ∧ GetterOption.parse tupleBareGetMut =
      .ok (.error (.optionValidationError .functionNameMissing))
    ∧ GetterOption.parse tupleBareBoth =
      .ok (.error (.optionValidationError .functionNameMissing))
    ∧ GetterOption.parse tupleFieldNamedX = .ok (.ok resolvedTupleNamedX)
    ∧ resolvedTupleNamedX.to_code =
      .ok [.immutableFn "" false "x" true true false (.index 0) "u32"]) :=
  tuple_field_missing_name_validation ⟨.index 0, "u32"⟩ 0
    ImmutableGetterOption.default MutableGetterOption.default
    rfl rfl rfl

/-- C9: the name aspect accepts every string as a value: for any
`name = "<string>"` argument the assignment recognizer always produces a
value (never the `RightHandValueInvalid` miss), constructing an identifier
from the string with no validation; when the string is not a valid
identifier the construction panics instead of reporting a diagnostic. -/
theorem name_assignment_accepts_any_string (s : String) :
    FunctionName.parse_option_from_str_assignment s =
      (if isValidIdent s then .ok (some ⟨some s⟩) else .panicked)
    ∧ FunctionName.parse_option
        (Meta.nameValue ["name"] (Expr.lit (Lit.str s))) =
      (if isValidIdent s then .ok (.ok ⟨some s⟩) else .panicked) := by
  constructor <;>
    · simp only [FunctionName.parse_option,
        FunctionName.parse_option_from_str_assignment, Ident.new,
        Path.get_ident, FunctionName.left_hand_path_accepted,
        get_string_literal]
      by_cases h : isValidIdent s = true <;> simp [h, MayPanic.map]

/-- C9 witness: the two halves at concrete strings: the valid identifier
`ok_name` parses to a name override, the invalid string `a b` panics. -/
theorem name_assignment_accepts_any_string_witness :
    FunctionName.parse_option
        (Meta.nameValue ["name"] (Expr.lit (Lit.str "ok_name"))) =
      .ok (.ok ⟨some "ok_name"⟩)
    ∧ FunctionName.parse_option
        (Meta.nameValue ["name"] (Expr.lit (Lit.str "a b"))) = .panicked := by
  have h₁ := (name_assignment_accepts_any_string "ok_name").2
  have h₂ := (name_assignment_accepts_any_string "a b").2
  rw [if_pos (by decide)] at h₁
  rw [if_neg (by decide)] at h₂
  exact ⟨h₁, h₂⟩

/-- C10: `name_mut` uses an explicit override verbatim, with no `_mut`
suffix appended; the `_mut` suffix is appended only when the name is derived
from a named field's identifier, and an identless field with no override has
no mutable accessor name. -/
theorem name_mut_override_verbatim (n : Option Ident) (f : FieldName) :
    FunctionName.name_mut ⟨n⟩ f =
      (match n, f with
       | some i, _ => some i
       | none, .ident i => some (i ++ "_mut")
       | none, .index _ => none) := by
  cases n <;> cases f <;> rfl

/-- an acceptable-miss test characterizes the shape of the parse result -/
theorem isAcceptErr_iff {α : Type} (r : Except ParseAttributeOptionError α) :
    isAcceptErr r = true ↔ ∃ e, r = .error (.acceptable e) := by
  cases r with
  | ok a => simp [isAcceptErr]
  | error err =>
    cases err with
    | acceptable e => simp [isAcceptErr]
    | unacceptable e => simp [isAcceptErr]

/-- an acceptable-miss test characterizes the shape of a possibly-panicking
parse result -/
theorem isAcceptErrP_iff {α : Type}
    (r : MayPanic (Except ParseAttributeOptionError α)) :
    isAcceptErrP r = true ↔ ∃ e, r = .ok (.error (.acceptable e)) := by
  cases r with
  | panicked => simp [isAcceptErrP]
  | ok x =>
    cases x with
    | ok a => simp [isAcceptErrP]
    | error err =>
      cases err with
      | acceptable e => simp [isAcceptErrP]
      | unacceptable e => simp [isAcceptErrP]

/-- an argument recognized by no aspect of the mutable accumulator makes
`add_config` return an acceptable miss from any state -/
theorem mutable_add_config_acceptable (m : Meta)
    (h : acceptableForMutable m = true) (s : MutableGetterOption) :
    ∃ e, s.add_config m = .ok (.error (.acceptable e)) := by
  rw [acceptableForMutable, Bool.and_eq_true] at h
  obtain ⟨e₁, he₁⟩ := (isAcceptErr_iff _).mp h.1
  obtain ⟨e₂, he₂⟩ := (isAcceptErrP_iff _).mp h.2
  exact ⟨e₂, by simp [MutableGetterOption.add_config, he₁, he₂, MayPanic.map]⟩

/-- an argument recognized by no aspect of the immutable accumulator makes
`add_config` return an acceptable miss from any state -/
theorem immutable_add_config_acceptable (m : Meta)
    (h : acceptableForImmutable m = true) (s : ImmutableGetterOption) :
    ∃ e, s.add_config m = .ok (.error (.acceptable e)) := by
  rw [acceptableForImmutable, Bool.and_eq_true, Bool.and_eq_true,
    Bool.and_eq_true] at h
  obtain ⟨⟨⟨hm, hc⟩, hg⟩, hs⟩ := h
  obtain ⟨e₂, he₂⟩ := mutable_add_config_acceptable m hm s.option
  obtain ⟨e₃, he₃⟩ := (isAcceptErr_iff _).mp hc
  obtain ⟨e₄, he₄⟩ := (isAcceptErr_iff _).mp hg
  obtain ⟨e₅, he₅⟩ := (isAcceptErr_iff _).mp hs
  exact ⟨e₅, by simp [ImmutableGetterOption.add_config, he₂, he₃, he₄, he₅,
    MayPanic.bind]⟩

/-- the accumulation loop skips an argument on which `add_config` reports an
acceptable miss from every state: the result is the same as for the list
with that argument removed -/
theorem runParse_skip {σ L : Type} [DecidableEq L]
    (addCfg : σ → Meta → MayPanic (Except (AddConfigError L) (L × σ)))
    (m : Meta)
    (hm : ∀ s : σ, ∃ e, addCfg s m = .ok (.error (.acceptable e)))
    (l₁ : List Meta) : ∀ (s : σ) (set : List L) (l₂ : List Meta),
      runParse addCfg s set (l₁ ++ m :: l₂) =
        runParse addCfg s set (l₁ ++ l₂) := by
  induction l₁ with
  | nil =>
    intro s set l₂
    obtain ⟨e, he⟩ := hm s
    simp [runParse, he, MayPanic.bind]
  | cons a l ih =>
    intro s set l₂
    simp only [List.cons_append]
    rw [runParse, runParse]
    cases haa : addCfg s a with
    | panicked => simp [MayPanic.bind]
    | ok v =>
      cases v with
      | ok x =>
        by_cases hx : x.1 ∈ set <;> simp [MayPanic.bind, hx, ih]
      | error err =>
        cases err with
        | acceptable e => simp [MayPanic.bind, ih]
        | unacceptable e o => simp [MayPanic.bind]

/-- C6: an argument recognized by no aspect of an accumulator is silently
skipped: the accumulation of any argument list containing it equals the
accumulation of the list with it removed, for both the immutable and the
mutable accumulator; no acceptable failure escapes as a visible error. -/
theorem acceptable_argument_silently_skipped (m : Meta) (l₁ l₂ : List Meta)
    (h : acceptableForImmutable m = true) :
    ImmutableGetterOption.parse (l₁ ++ m :: l₂) =
      ImmutableGetterOption.parse (l₁ ++ l₂)
    ∧ MutableGetterOption.parse (l₁ ++ m :: l₂) =
      MutableGetterOption.parse (l₁ ++ l₂) := by
  have hmu : acceptableForMutable m = true := by
    rw [acceptableForImmutable, Bool.and_eq_true, Bool.and_eq_true,
      Bool.and_eq_true] at h
    exact h.1.1.1
  constructor
  · exact runParse_skip _ m (immutable_add_config_acceptable m h) l₁ _ _ l₂
  · exact runParse_skip _ m (mutable_add_config_acceptable m hmu) l₁ _ _ l₂

/-- C6 witness: the unrecognized bare word `frobnicate` is skipped by both
accumulators in `#[get(frobnicate, pub)]`. -/
theorem acceptable_argument_silently_skipped_witness :
    acceptableForImmutable (Meta.path ["frobnicate"]) = true
    ∧ (ImmutableGetterOption.parse
        [Meta.path ["frobnicate"], Meta.path ["pub"]] =
      ImmutableGetterOption.parse [Meta.path ["pub"]]
    ∧ MutableGetterOption.parse [Meta.path ["frobnicate"], Meta.path ["pub"]] =
      MutableGetterOption.parse [Meta.path ["pub"]]) :=
  ⟨by decide,
    acceptable_argument_silently_skipped (Meta.path ["frobnicate"]) []
      [Meta.path ["pub"]] (by decide)⟩

/-- the per-field loop produces no item at all exactly when every field's
option parse reports `NotFound` -/
theorem collectFields_nil_iff (fs : List SynField) :
    ∀ i, (collectFields i fs = .ok []) ↔ allSkipped i fs = true := by
  induction fs with
  | nil => intro i; simp [collectFields, allSkipped]
  | cons f fs ih =>
    intro i
    cases hp : GetterOption.parse ⟨f, i⟩ with
    | panicked => simp [collectFields, allSkipped, hp, MayPanic.bind]
    | ok r =>
      cases r with
      | ok g =>
        cases hc : g.to_code with
        | panicked =>
          simp [collectFields, allSkipped, hp, hc, MayPanic.bind]
        | ok decls =>
          cases hcf : collectFields (i + 1) fs with
          | panicked =>
            simp [collectFields, allSkipped, hp, hc, hcf, MayPanic.bind,
              MayPanic.map]
          | ok rest =>
            simp [collectFields, allSkipped, hp, hc, hcf, MayPanic.bind,
              MayPanic.map]
      | error e =>
        cases e with
        | notFound =>
          simp [collectFields, allSkipped, hp, MayPanic.bind, ih]
        | nameValue =>
          cases hcf : collectFields (i + 1) fs with
          | panicked =>
            simp [collectFields, allSkipped, hp, hcf, MayPanic.bind,
              MayPanic.map]
          | ok rest =>
            simp [collectFields, allSkipped, hp, hcf, MayPanic.bind,
              MayPanic.map]
        | getterParseError e' =>
          cases hcf : collectFields (i + 1) fs with
          | panicked =>
            simp [collectFields, allSkipped, hp, hcf, MayPanic.bind,
              MayPanic.map]
          | ok rest =>
            simp [collectFields, allSkipped, hp, hcf, MayPanic.bind,
              MayPanic.map]
        | optionValidationError e' =>
          cases hcf : collectFields (i + 1) fs with
          | panicked =>
            simp [collectFields, allSkipped, hp, hcf, MayPanic.bind,
              MayPanic.map]
          | ok rest =>
            simp [collectFields, allSkipped, hp, hcf, MayPanic.bind,
              MayPanic.map]

/-- the derive on named fields produces the top-level no-field diagnostic
exactly when the per-field loop produced no item -/
theorem derive_named_no_field_iff (fs : List SynField) :
    derive ⟨.structData (.named fs)⟩ = .ok (.compileError noFieldAttrMsg) ↔
      collectFields 0 fs = .ok [] := by
  cases hc : collectFields 0 fs with
  | panicked => simp [derive, hc, MayPanic.map]
  | ok items =>
    cases items with
    | nil => simp [derive, hc, MayPanic.map]
    | cons a l => simp [derive, hc, MayPanic.map]

/-- the derive on unnamed fields produces the top-level no-field diagnostic
exactly when the per-field loop produced no item -/
theorem derive_unnamed_no_field_iff (fs : List SynField) :
    derive ⟨.structData (.unnamed fs)⟩ = .ok (.compileError noFieldAttrMsg) ↔
      collectFields 0 fs = .ok [] := by
  cases hc : collectFields 0 fs with
  | panicked => simp [derive, hc, MayPanic.map]
  | ok items =>
    cases items with
    | nil => simp [derive, hc, MayPanic.map]
    | cons a l => simp [derive, hc, MayPanic.map]

/-- C7 counterexample: a struct whose single field errors (the unsupported
name-value attribute `#[get = "x"]`) does NOT fail with the top-level
"no field has attribute" diagnostic: the derive completes with an impl block
containing a per-field `compile_error!` fragment. -/
theorem errored_field_emits_local_diagnostic :
    GetterOption.parse ⟨fieldNameValueAttr, 0⟩ = .ok (.error .nameValue)
    ∧ derive ⟨.structData (.named [fieldNameValueAttr])⟩ =
      .ok (.implBlock [.compileErrorItem
        "error parsing option: field attribute is not supported in name value mode, please refer to the documentation"])
    ∧ derive ⟨.structData (.named [fieldNameValueAttr])⟩ ≠
      .ok (.compileError noFieldAttrMsg) := by
  refine ⟨by decide, by decide, ?_⟩
  intro hcontra
  have h₂ : derive ⟨.structData (.named [fieldNameValueAttr])⟩ =
      .ok (.implBlock [.compileErrorItem
        "error parsing option: field attribute is not supported in name value mode, please refer to the documentation"]) := by
    decide
  rw [h₂] at hcontra
  simp at hcontra

/-- C7 (amended): the derive fails with the single top-level diagnostic
`no field has attribute #[get] or #[get_mut]` exactly when every field is
skipped because its option parse reports `NotFound` (in particular when
there are zero fields); fields that error otherwise contribute per-field
diagnostics inside the emitted impl block instead. -/
theorem no_field_diagnostic_iff_all_skipped (fs : List SynField) :
    (derive ⟨.structData (.named fs)⟩ = .ok (.compileError noFieldAttrMsg) ↔
      allSkipped 0 fs = true)
    ∧ (derive ⟨.structData (.unnamed fs)⟩ = .ok (.compileError noFieldAttrMsg)
      ↔ allSkipped 0 fs = true) :=
  ⟨(derive_named_no_field_iff fs).trans (collectFields_nil_iff fs 0),
    (derive_unnamed_no_field_iff fs).trans (collectFields_nil_iff fs 0)⟩

/-- a validated getter option emits its accessors without panicking -/
theorem validate_ok_to_code (g : GetterOption) (h : g.validate = .ok ()) :
    (g.to_code).isOk = true := by
  obtain ⟨fi, w⟩ := g
  cases w with
  | immutable i =>
    simp only [GetterOption.validate] at h
    cases ho : i.option.name.name fi.field_name with
    | none => rw [ho] at h; simp at h
    | some n =>
      simp [GetterOption.to_code, WhichGetter.to_code,
        ImmutableGetterOption.to_code, ho, MayPanic.map, MayPanic.isOk]
  | mutable m =>
    simp only [GetterOption.validate] at h
    cases ho : m.name.name_mut fi.field_name with
    | none => rw [ho] at h; simp at h
    | some n =>
      simp [GetterOption.to_code, WhichGetter.to_code,
        MutableGetterOption.to_code, ho, MayPanic.map, MayPanic.isOk]
  | both i m =>
    simp only [GetterOption.validate] at h
    cases ho₁ : i.option.name.name fi.field_name with
    | none => rw [ho₁] at h; simp at h
    | some n₁ =>
      cases ho₂ : m.name.name_mut fi.field_name with
      | none => rw [ho₁, ho₂] at h; simp at h
      | some n₂ =>
        simp [GetterOption.to_code, WhichGetter.to_code,
          ImmutableGetterOption.to_code, MutableGetterOption.to_code, ho₁,
          ho₂, MayPanic.bind, MayPanic.map, MayPanic.isOk]

/-- a getter option returned by a successful parse has passed validation -/
theorem parse_ok_validate (f : Field) (g : GetterOption)
    (h : GetterOption.parse f = .ok (.ok g)) : g.validate = .ok () := by
  unfold GetterOption.parse at h
  cases hp : GetterOption.parseLoop none f.field.attrs with
  | panicked => rw [hp] at h; simp [MayPanic.map] at h
  | ok r =>
    rw [hp] at h
    simp only [MayPanic.map, MayPanic.ok.injEq] at h
    cases r with
    | error e => simp [GetterOption.finalize] at h
    | ok ow =>
      cases ow with
      | none => simp [GetterOption.finalize] at h
      | some w =>
        simp only [GetterOption.finalize] at h
        cases hv : GetterOption.validate ⟨FieldInformation.from_field f, w⟩
          with
        | error e => rw [hv] at h; simp at h
        | ok u =>
          rw [hv] at h
          simp only [Except.ok.injEq] at h
          cases u
          rw [← h]
          exact hv

/-- C8: code emission never fails on a configuration that `parse` returned
successfully: the accessor-name lookups inside `to_code` succeed for every
selected accessor kind, so the `expect("no field name")` panic branches are
unreachable. -/
theorem emission_never_panics_on_parsed_option (f : Field)
    (g : GetterOption) (h : GetterOption.parse f = .ok (.ok g)) :
    (g.to_code).isOk = true :=
  validate_ok_to_code g (parse_ok_validate f g h)

/-- C8 witness: the theorem applied to a named field with a bare `#[get]`. -/
theorem emission_never_panics_on_parsed_option_witness :
    (resolvedNamedBareGet.to_code).isOk = true :=
  emission_never_panics_on_parsed_option namedBareGet resolvedNamedBareGet
    (by decide)

end UtilsLib
